import Mathlib

/-!
Shallow embedding of the Edu-API school-management backend (Flask views over a
relational store) and proofs about its timetable conflict checking, attendance
and performance aggregation, validation, deletion guards and access control.

The embedding models:
- JSON request payloads as association lists of `JVal` values;
- the relational store as lists of records (`DBState`);
- each route handler as a pure function from caller, state and payload to an
  HTTP status plus a possibly-updated state (the authenticated caller identity
  is resolved by the external auth collaborator and passed in directly);
- Python runtime errors escaping a handler (KeyError, AttributeError) as
  `Except.error`;
- Python floats as rationals, with 2-decimal rounding modelled as
  round-half-to-even (the rounding mode of Python round).
-/

namespace EduApi

/-- JSON values as they appear in request payloads (floats as rationals). -/
inductive JVal where
  | jnull : JVal
  | jbool : Bool → JVal
  | jint : Int → JVal
  | jnum : ℚ → JVal
  | jstr : String → JVal
  | jarr : List JVal → JVal
  | jobj : List (String × JVal) → JVal

/-- A JSON object body: association list from field name to value. -/
def Payload := List (String × JVal)

/-- Python `key in data`. -/
def hasKey (data : Payload) (k : String) : Bool :=
  data.any (fun p => p.1 = k)

/-- Python `data[key]` / `data.get(key)` lookup (first binding wins). -/
def getVal (data : Payload) (k : String) : Option JVal :=
  (data.find? (fun p => p.1 = k)).map (·.2)

/-- Python `str.capitalize`: first character upper-cased, the rest lower-cased. -/
def pyCapitalize (s : String) : String :=
  match s.toList with
  | [] => ""
  | c :: cs => String.mk (c.toUpper :: cs.map Char.toLower)

/-- Rounding of a rational to the nearest integer, ties to even — the rounding
performed by Python `round`. -/
def roundHalfEven (q : ℚ) : ℤ :=
  let f := q.floor
  if q - f < 1/2 then f
  else if q - f > 1/2 then f + 1
  else if f % 2 = 0 then f else f + 1

/-- Python `round(x, 2)` on the rational model of a float. -/
def round2 (q : ℚ) : ℚ :=
  (roundHalfEven (q * 100) : ℚ) / 100

theorem ratFloor_eq (q : ℚ) : q.floor = ⌊q⌋ := by
  rw [Rat.floor_def, Rat.floor_def']

theorem floor_le_roundHalfEven (q : ℚ) : ⌊q⌋ ≤ roundHalfEven q := by
  unfold roundHalfEven
  rw [ratFloor_eq q]
  dsimp only
  split
  · exact le_refl _
  · split
    · omega
    · split
      · exact le_refl _
      · omega

theorem roundHalfEven_le_ceil (q : ℚ) : roundHalfEven q ≤ ⌈q⌉ := by
  have hfc : ⌊q⌋ ≤ ⌈q⌉ := Int.floor_le_ceil q
  have key : 1/2 ≤ q - ⌊q⌋ → ⌊q⌋ + 1 ≤ ⌈q⌉ := by
    intro h
    have hlt : (⌊q⌋ : ℚ) < q := by linarith
    have := Int.lt_ceil.mpr hlt
    omega
  unfold roundHalfEven
  rw [ratFloor_eq q]
  dsimp only
  split
  · exact hfc
  · rename_i h1
    split
    · rename_i h2
      exact key (by linarith)
    · split
      · exact hfc
      · exact key (by push_neg at h1; linarith)

theorem round2_nonneg {q : ℚ} (h : 0 ≤ q) : 0 ≤ round2 q := by
  unfold round2
  have h0 : (0 : ℤ) ≤ ⌊q * 100⌋ := by
    have : (0 : ℚ) ≤ q * 100 := by linarith
    exact Int.floor_nonneg.mpr this
  have := floor_le_roundHalfEven (q * 100)
  have hr : (0 : ℤ) ≤ roundHalfEven (q * 100) := le_trans h0 this
  positivity

theorem round2_le_100 {q : ℚ} (h : q ≤ 100) : round2 q ≤ 100 := by
  unfold round2
  have hc : ⌈q * 100⌉ ≤ (10000 : ℤ) := by
    apply Int.ceil_le.mpr
    push_cast
    linarith
  have := roundHalfEven_le_ceil (q * 100)
  have hr : roundHalfEven (q * 100) ≤ (10000 : ℤ) := le_trans this hc
  have : (roundHalfEven (q * 100) : ℚ) ≤ 10000 := by exact_mod_cast hr
  linarith

/-! ## Data model (models.py)

Each SQLAlchemy model becomes a record; nullable columns become `Option`;
float columns become `ℚ`; the store is a `DBState` of row lists plus an
auto-increment counter. Only the columns the verified handlers touch are
carried; the views in this repository read a scalar `role` string off the
user, which is what is embedded here. -/

/-- Authenticated user as the views consume it: id, role string, display
name, plus the account columns the user views read and write (username,
email, phone, password hash, active flag), defaulted for fixtures that never
touch them. -/
structure User where
  id : Nat
  role : String
  full_name : String
  username : Option String := none
  email : String := ""
  phone : Option String := none
  password_hash : Option String := none
  is_active : Bool := true
deriving DecidableEq, Repr

/-- Class model (models.py `Class`). -/
structure SchoolClass where
  id : Nat
  name : String
  stream : Option String
  academic_year : Option String
  class_teacher_id : Option Nat
deriving DecidableEq, Repr

/-- Student model. -/
structure Student where
  id : Nat
  admission_number : String
  full_name : String
  class_id : Option Nat
deriving DecidableEq, Repr

/-- Subject model. -/
structure Subject where
  id : Nat
  name : String
  code : Option String
deriving DecidableEq, Repr

/-- Teacher-subject-class assignment (models.py `TeacherSubject`). -/
structure TeacherSubject where
  id : Nat
  teacher_id : Nat
  subject_id : Nat
  class_id : Nat
deriving DecidableEq, Repr

/-- Timetable entry. Note models.py declares no uniqueness constraint on any
column combination of this table. -/
structure Timetable where
  id : Nat
  day : String
  period : Int
  room : Option String
  subject_id : Nat
  class_id : Nat
  teacher_id : Nat
deriving DecidableEq, Repr

/-- Assessment model. -/
structure Assessment where
  id : Nat
  name : String
  assessment_type : Option String
  max_score : Int
  is_cbc : Bool
  subject_id : Nat
  class_id : Nat
deriving DecidableEq, Repr

/-- Student performance record; `score` is a nullable float column. -/
structure StudentPerformance where
  id : Nat
  score : Option ℚ
  competency_level : Option String
  strand : Option String
  sub_strand : Option String
  comments : Option String
  student_id : Nat
  assessment_id : Nat
  recorded_by : Nat
deriving DecidableEq, Repr

/-- Attendance session; the date is carried as its YYYY-MM-DD string. -/
structure AttendanceSession where
  id : Nat
  date : String
  period : Option Int
  is_school_wide : Bool
  class_id : Option Nat
  subject_id : Option Nat
  recorded_by : Nat
deriving DecidableEq, Repr

/-- Individual attendance record. -/
structure AttendanceRecord where
  id : Nat
  status : String
  remarks : Option String
  session_id : Nat
  student_id : Nat
deriving DecidableEq, Repr

/-- The relational store: one list per table, plus the auto-increment id
counter handed to newly inserted rows. -/
structure DBState where
  users : List User
  classes : List SchoolClass
  students : List Student
  subjects : List Subject
  teacherSubjects : List TeacherSubject
  timetables : List Timetable
  assessments : List Assessment
  performances : List StudentPerformance
  attendanceSessions : List AttendanceSession
  attendanceRecords : List AttendanceRecord
  nextId : Nat
deriving DecidableEq, Repr

/-- Primary-key lookup `Model.query.get(id)`. -/
def DBState.getSubject (st : DBState) (n : Int) : Option Subject :=
  st.subjects.find? (fun s => (s.id : Int) = n)

/-- Primary-key lookup on classes. -/
def DBState.getClass (st : DBState) (n : Int) : Option SchoolClass :=
  st.classes.find? (fun c => (c.id : Int) = n)

/-- Primary-key lookup on users. -/
def DBState.getUser (st : DBState) (n : Int) : Option User :=
  st.users.find? (fun u => (u.id : Int) = n)

/-- Primary-key lookup on students. -/
def DBState.getStudent (st : DBState) (n : Int) : Option Student :=
  st.students.find? (fun s => (s.id : Int) = n)

/-- Primary-key lookup on assessments. -/
def DBState.getAssessment (st : DBState) (n : Int) : Option Assessment :=
  st.assessments.find? (fun a => (a.id : Int) = n)

/-- Primary-key lookup on performance records. -/
def DBState.getPerformance (st : DBState) (n : Int) : Option StudentPerformance :=
  st.performances.find? (fun p => (p.id : Int) = n)

/-- Primary-key lookup on attendance sessions. -/
def DBState.getSession (st : DBState) (n : Int) : Option AttendanceSession :=
  st.attendanceSessions.find? (fun s => (s.id : Int) = n)

/-- Primary-key lookup on timetable entries. -/
def DBState.getTimetable (st : DBState) (n : Int) : Option Timetable :=
  st.timetables.find? (fun t => (t.id : Int) = n)

/-! ## Timetable views (views/timetable.py) -/

/-- Python truthiness of a JSON scalar (empty string, zero, null, False are falsy). -/
def JVal.truthy : JVal → Bool
  | .jnull => false
  | .jbool b => b
  | .jint n => n ≠ 0
  | .jnum q => q ≠ 0
  | .jstr s => s ≠ ""
  | .jarr l => ¬ l.isEmpty
  | .jobj l => ¬ l.isEmpty

/-- Python `str.title()` restricted to space-separated lowercase words, as the
field names fed to it here are. -/
def pyTitle (s : String) : String :=
  String.intercalate " " ((s.splitOn " ").map pyCapitalize)

/-- Canonical week-day strings from the validator. -/
def weekDays : List String :=
  ["Monday", "Tuesday", "Wednesday", "Thursday", "Friday", "Saturday", "Sunday"]

/-- Embedding of timetable.py `validate_timetable_data`. The result is the
returned value (`none` for Python `None`, `some errors` for the error dict in
insertion order); `Except.error` models an uncaught runtime exception. The
period condition keeps the Python operator precedence of line 22:
`(('period' in data) and (not isinstance(p, int))) or p < 1 or p > 8`, so a
payload without a `period` key evaluates `data['period']` and raises KeyError
regardless of `is_update`. -/
def validate_timetable_data (st : DBState) (data : Payload) (is_update : Bool) :
    Except String (Option (List (String × String))) := do
  let requiredFields := ["day", "period", "subject_id", "class_id", "teacher_id"]
  let e0 : List (String × String) :=
    if is_update then []
    else (requiredFields.filter (fun f => ¬ hasKey data f)).map
      (fun f => (f, pyTitle (f.replace "_" " ") ++ " is required"))
  let e1 ← if hasKey data "day" then
      match getVal data "day" with
      | some (JVal.jstr s) =>
          if weekDays.contains (pyCapitalize s) then pure ([] : List (String × String))
          else pure [("day", "Invalid day of week")]
      | _ => Except.error "AttributeError: capitalize"
    else pure []
  let periodBad ← if hasKey data "period" then
      match getVal data "period" with
      | some (JVal.jint n) => pure (n < 1 || n > 8)
      | _ => pure true
    else Except.error "KeyError: period"
  let e2 : List (String × String) :=
    if periodBad then [("period", "Period must be an integer between 1 and 8")] else []
  let e3 : List (String × String) :=
    if hasKey data "subject_id" then
      match getVal data "subject_id" with
      | some (JVal.jint n) =>
          if (st.getSubject n).isSome then [] else [("subject_id", "Subject not found")]
      | _ => [("subject_id", "Subject not found")]
    else []
  let e4 : List (String × String) :=
    if hasKey data "class_id" then
      match getVal data "class_id" with
      | some (JVal.jint n) =>
          if (st.getClass n).isSome then [] else [("class_id", "Class not found")]
      | _ => [("class_id", "Class not found")]
    else []
  let e5 : List (String × String) :=
    if hasKey data "teacher_id" then
      match getVal data "teacher_id" with
      | some (JVal.jint n) =>
          if (st.getUser n).isSome then [] else [("teacher_id", "Teacher not found")]
      | _ => [("teacher_id", "Teacher not found")]
    else []
  let errors := e0 ++ e1 ++ e2 ++ e3 ++ e4 ++ e5
  pure (if errors.isEmpty then none else some errors)

/-- Conflict descriptor returned by the conflict checker. -/
structure Conflict where
  ctype : String
  message : String
  conflicting_entry_id : Nat
deriving DecidableEq, Repr

/-- Name of a subject by id, as interpolated into conflict messages. -/
def subjectNameOf (st : DBState) (sid : Nat) : String :=
  (((st.subjects.find? (fun s => s.id == sid))).map (fun s => s.name)).getD ""

/-- Name of a class by id, as interpolated into conflict messages. -/
def classNameOf (st : DBState) (cid : Nat) : String :=
  (((st.classes.find? (fun c => c.id == cid))).map (fun c => c.name)).getD ""

/-- Display name of a user by id, as interpolated into conflict messages. -/
def teacherNameOf (st : DBState) (tid : Nat) : String :=
  (((st.users.find? (fun u => u.id == tid))).map (fun u => u.full_name)).getD ""

/-- The `.first()` query for an existing entry with the same day, period and
teacher. -/
def teacherConflictFor (st : DBState) (day : String) (period : Int) (teacher_id : Int) :
    Option Timetable :=
  st.timetables.find? (fun t =>
    t.day == day && t.period == period && (t.teacher_id : Int) == teacher_id)

/-- The `.first()` query for an existing entry with the same day, period and
class. -/
def classConflictFor (st : DBState) (day : String) (period : Int) (class_id : Int) :
    Option Timetable :=
  st.timetables.find? (fun t =>
    t.day == day && t.period == period && (t.class_id : Int) == class_id)

/-- The `.first()` query for an existing entry with the same day, period and
room (the stored nullable room column compared with the supplied value). -/
def roomConflictFor (st : DBState) (day : String) (period : Int) (room : JVal) :
    Option Timetable :=
  st.timetables.find? (fun t =>
    t.day == day && t.period == period &&
      (match room with
       | JVal.jstr s => t.room == some s
       | _ => false))

/-- Conflict computation of timetable.py lines 272-328: three independent
checks against entries at the same (capitalized day, period); the room check
runs only when the payload carries a truthy `room` value; every check that
hits appends one descriptor. -/
def conflictsFor (st : DBState) (day : String) (period : Int)
    (teacher_id class_id : Int) (room : Option JVal) : List Conflict :=
  let tc := match teacherConflictFor st day period teacher_id with
    | some t =>
        [⟨"teacher",
          "Teacher is already teaching " ++ subjectNameOf st t.subject_id ++ " to " ++
            classNameOf st t.class_id ++ " at this time", t.id⟩]
    | none => []
  let cc := match classConflictFor st day period class_id with
    | some t =>
        [⟨"class",
          "Class is already having " ++ subjectNameOf st t.subject_id ++ " with " ++
            teacherNameOf st t.teacher_id ++ " at this time", t.id⟩]
    | none => []
  let rc := match room with
    | some v =>
        if v.truthy then
          match roomConflictFor st day period v with
          | some t =>
              [⟨"room",
                "Room is already occupied by " ++ classNameOf st t.class_id ++ " for " ++
                  subjectNameOf st t.subject_id ++ " at this time", t.id⟩]
          | none => []
        else []
    | none => []
  tc ++ cc ++ rc

/-- The effective room check of the handler: it runs only when the payload
carries a truthy `room` value (so an absent, null or empty room skips the
check), and then looks for an entry at the same day and period in that room. -/
def roomHit (st : DBState) (day : String) (period : Int) (room : Option JVal) :
    Option Timetable :=
  match room with
  | some v => if v.truthy then roomConflictFor st day period v else none
  | none => none

/-- Embedding of the `/timetable/check-conflicts` handler: role gate, payload
validation, then the three conflict checks. Result is the HTTP status and the
conflicts list of the 200 response body. -/
def check_timetable_conflicts (st : DBState) (caller : User) (data : Payload) :
    Except String (Nat × List Conflict) := do
  if caller.role ≠ "admin" ∧ caller.role ≠ "headteacher" then
    pure (403, [])
  else do
    let verrs ← validate_timetable_data st data false
    match verrs with
    | some _ => pure (400, [])
    | none =>
      match getVal data "day", getVal data "period",
            getVal data "teacher_id", getVal data "class_id" with
      | some (JVal.jstr dayS), some (JVal.jint per),
        some (JVal.jint tid), some (JVal.jint cid) =>
          pure (200, conflictsFor st (pyCapitalize dayS) per tid cid (getVal data "room"))
      | _, _, _, _ => Except.error "TypeError"

/-- Embedding of `POST /timetable` (create_timetable_entry). The handler does
not consult the conflict checker; models.py declares no uniqueness constraint
on the timetable table, so the commit of a well-validated entry cannot raise
IntegrityError and the insert is modelled as always succeeding. -/
def create_timetable_entry (st : DBState) (caller : User) (data : Payload) :
    Except String (Nat × DBState) := do
  if caller.role ≠ "admin" ∧ caller.role ≠ "headteacher" then
    pure (403, st)
  else do
    let verrs ← validate_timetable_data st data false
    match verrs with
    | some _ => pure (400, st)
    | none =>
      match getVal data "day", getVal data "period", getVal data "subject_id",
            getVal data "class_id", getVal data "teacher_id" with
      | some (JVal.jstr dayS), some (JVal.jint per), some (JVal.jint sid),
        some (JVal.jint cid), some (JVal.jint tid) =>
          let room : Option String := match getVal data "room" with
            | some (JVal.jstr s) => some s
            | _ => none
          let entry : Timetable :=
            ⟨st.nextId, pyCapitalize dayS, per, room, sid.toNat, cid.toNat, tid.toNat⟩
          pure (201, { st with
            timetables := st.timetables ++ [entry], nextId := st.nextId + 1 })
      | _, _, _, _, _ => Except.error "TypeError"

/-- Embedding of `PUT /timetable/:id` (update_timetable_entry). The role gate
runs before the entry lookup, so non-(admin/headteacher) callers receive 403
even for an id that names no entry. -/
def update_timetable_entry (st : DBState) (caller : User) (entry_id : Nat)
    (data : Payload) : Except String (Nat × DBState) := do
  if caller.role ≠ "admin" ∧ caller.role ≠ "headteacher" then
    pure (403, st)
  else
    match st.getTimetable (entry_id : Int) with
    | none => pure (404, st)
    | some entry0 => do
      let verrs ← validate_timetable_data st data true
      match verrs with
      | some _ => pure (400, st)
      | none =>
        let e1 := if hasKey data "day" then
            match getVal data "day" with
            | some (JVal.jstr s) => { entry0 with day := pyCapitalize s }
            | _ => entry0
          else entry0
        let e2 := if hasKey data "period" then
            match getVal data "period" with
            | some (JVal.jint n) => { e1 with period := n }
            | _ => e1
          else e1
        let e3 := if hasKey data "room" then
            match getVal data "room" with
            | some (JVal.jstr s) => { e2 with room := some s }
            | some JVal.jnull => { e2 with room := none }
            | _ => e2
          else e2
        let e4 := if hasKey data "subject_id" then
            match getVal data "subject_id" with
            | some (JVal.jint n) => { e3 with subject_id := n.toNat }
            | _ => e3
          else e3
        let e5 := if hasKey data "class_id" then
            match getVal data "class_id" with
            | some (JVal.jint n) => { e4 with class_id := n.toNat }
            | _ => e4
          else e4
        let e6 := if hasKey data "teacher_id" then
            match getVal data "teacher_id" with
            | some (JVal.jint n) => { e5 with teacher_id := n.toNat }
            | _ => e5
          else e5
        pure (200, { st with
          timetables := st.timetables.map (fun t => if t.id == entry0.id then e6 else t) })

/-- Embedding of `DELETE /timetable/:id` (delete_timetable_entry): like the
update, the admin/headteacher gate runs before the entry lookup; a timetable
entry has no dependent rows, so the delete commits. -/
def delete_timetable_entry (st : DBState) (caller : User) (entry_id : Nat) :
    Nat × DBState :=
  if caller.role ≠ "admin" ∧ caller.role ≠ "headteacher" then (403, st)
  else
    match st.getTimetable (entry_id : Int) with
    | none => (404, st)
    | some entry =>
        (200, { st with timetables := st.timetables.filter (fun t => t.id ≠ entry.id) })

/-! ## Attendance views (views/attendance.py) -/

/-- Count of records whose status is the string `present`. -/
def presentCountOf (records : List AttendanceRecord) : Nat :=
  (records.filter (fun r => r.status == "present")).length

/-- Attendance statistics block of `GET /attendance/student/:id` (lines
280-299): total record count, present count, and the rate
`(present / total * 100) if total > 0 else 0` rounded to two decimals in the
response. -/
def student_attendance_statistics (records : List AttendanceRecord) : Nat × Nat × ℚ :=
  let total_records := records.length
  let present_count := presentCountOf records
  let attendance_rate : ℚ :=
    if total_records > 0 then (present_count : ℚ) / (total_records : ℚ) * 100 else 0
  (total_records, present_count, round2 attendance_rate)

/-- Shared per-group rate formula of the attendance reports (reports.py lines
72-81 and attendance.py lines 433-443): identical expression over a present
count and a total count. -/
def reportAttendanceRate (present_count total_records : Nat) : ℚ :=
  round2 (if total_records > 0 then (present_count : ℚ) / (total_records : ℚ) * 100 else 0)

/-- Abstraction of `datetime.strptime(s, %Y-%m-%d)`: the dashed numeric shape
with month 1-12 and day 1-31; finer calendar validity is irrelevant to every
claim and not modelled. -/
def validDateString (s : String) : Bool :=
  match s.splitOn "-" with
  | [y, m, d] =>
      y.length == 4 && (m.length == 1 || m.length == 2) && (d.length == 1 || d.length == 2) &&
      y.all Char.isDigit && m.all Char.isDigit && d.all Char.isDigit &&
      1 ≤ (m.toNat?.getD 0) && (m.toNat?.getD 0) ≤ 12 &&
      1 ≤ (d.toNat?.getD 0) && (d.toNat?.getD 0) ≤ 31
  | _ => false

/-- Validation errors of one attendance record in
`validate_attendance_records_data`: a missing student_id short-circuits the
loop body with `continue`, skipping the status checks for that record. -/
def attendanceRecordErrors (st : DBState) (i : Nat) (record : Payload)
    (session_class_id : Option Nat) : List String :=
  if ¬ hasKey record "student_id" then
    ["Record " ++ toString i ++ ": Missing student_id"]
  else
    let studentErrs :=
      match getVal record "student_id" with
      | some (JVal.jint n) =>
          match st.getStudent n with
          | none => ["Record " ++ toString i ++ ": Student not found"]
          | some stu =>
              if stu.class_id ≠ session_class_id then
                ["Record " ++ toString i ++ ": Student does not belong to this class"]
              else []
      | _ => ["Record " ++ toString i ++ ": Student not found"]
    let statusErrs :=
      if ¬ hasKey record "status" then
        ["Record " ++ toString i ++ ": Missing status"]
      else
        match getVal record "status" with
        | some (JVal.jstr s) =>
            if ["present", "absent", "late", "excused"].contains s then []
            else ["Record " ++ toString i ++ ": Invalid status"]
        | _ => ["Record " ++ toString i ++ ": Invalid status"]
    studentErrs ++ statusErrs

/-- Embedding of `validate_attendance_records_data` over the decoded records
array. -/
def validate_attendance_records_data (st : DBState) (records : List Payload)
    (session_class_id : Option Nat) : Option (List String) :=
  let errors := (records.enum.map
    (fun p => attendanceRecordErrors st p.1 p.2 session_class_id)).flatten
  if errors.isEmpty then none else some errors

/-- Decoding of `data[records]` as the list of record objects; any other
shape makes the Python loop raise. -/
def decodeRecords : JVal → Except String (List Payload)
  | JVal.jarr l =>
      l.foldr (fun v acc => do
        let rest ← acc
        match v with
        | JVal.jobj fields => Except.ok (fields :: rest)
        | _ => Except.error "TypeError: record is not an object")
        (Except.ok [])
  | _ => Except.error "TypeError: records is not a list"

/-- Materialisation of one replacement record inside the update loop (keys
are present and well-typed whenever the records validation passed). -/
def buildAttendanceRecord (session_id newId : Nat) (record : Payload) : AttendanceRecord :=
  { id := newId
    status := match getVal record "status" with
      | some (JVal.jstr s) => s
      | _ => ""
    remarks := match getVal record "remarks" with
      | some (JVal.jstr s) => some s
      | _ => none
    session_id := session_id
    student_id := match getVal record "student_id" with
      | some (JVal.jint n) => n.toNat
      | _ => 0 }

/-- Try block of update_attendance_session: apply supplied session fields,
replace the records when supplied; a date parse failure raises inside the try
and is answered 500 with the transaction rolled back. -/
def applyAttendanceSessionUpdate (st : DBState) (session : AttendanceSession)
    (data : Payload) (records? : Option (List Payload)) : Nat × DBState :=
  let dateOk := if hasKey data "date" then
      match getVal data "date" with
      | some (JVal.jstr s) => validDateString s
      | _ => false
    else true
  if ¬ dateOk then (500, st)
  else
    let s1 := if hasKey data "date" then
        match getVal data "date" with
        | some (JVal.jstr s) => { session with date := s }
        | _ => session
      else session
    let s2 := if hasKey data "period" then
        match getVal data "period" with
        | some (JVal.jint n) => { s1 with period := some n }
        | some JVal.jnull => { s1 with period := none }
        | _ => s1
      else s1
    let s3 := if hasKey data "is_school_wide" then
        match getVal data "is_school_wide" with
        | some (JVal.jbool b) => { s2 with is_school_wide := b }
        | _ => s2
      else s2
    let st1 := { st with
      attendanceSessions :=
        st.attendanceSessions.map (fun s => if s.id == session.id then s3 else s) }
    match records? with
    | none => (200, st1)
    | some recs =>
        let kept := st1.attendanceRecords.filter (fun r => r.session_id ≠ session.id)
        let added := (recs.enum.map
          (fun p => buildAttendanceRecord session.id (st1.nextId + p.1) p.2))
        (200, { st1 with
          attendanceRecords := kept ++ added
          nextId := st1.nextId + recs.length })

/-- Embedding of `PUT /attendance/sessions/:id` (update_attendance_session):
session lookup first (404), then the recorder/role gate (403), then optional
records validation (400), then the try block whose failures roll back to the
original state with a 500. -/
def update_attendance_session (st : DBState) (caller : User) (session_id : Nat)
    (data : Payload) : Except String (Nat × DBState) := do
  match st.getSession (session_id : Int) with
  | none => pure (404, st)
  | some session =>
    if caller.id ≠ session.recorded_by ∧ caller.role ≠ "headteacher" ∧ caller.role ≠ "admin" then
      pure (403, st)
    else do
      let records? ← if hasKey data "records" then
          match getVal data "records" with
          | some v => do
              let recs ← decodeRecords v
              pure (some recs)
          | none => pure none
        else pure none
      match records? with
      | some recs =>
          match validate_attendance_records_data st recs session.class_id with
          | some _ => pure (400, st)
          | none => pure (applyAttendanceSessionUpdate st session data records?)
      | none => pure (applyAttendanceSessionUpdate st session data records?)

/-- Embedding of `DELETE /attendance/sessions/:id` (delete_attendance_session):
session lookup first (404), then the recorder/role gate (403); deletion
removes the session and, via the declared delete-orphan cascade, its
records. -/
def delete_attendance_session (st : DBState) (caller : User) (session_id : Nat) :
    Nat × DBState :=
  match st.getSession (session_id : Int) with
  | none => (404, st)
  | some session =>
    if caller.id ≠ session.recorded_by ∧ caller.role ≠ "headteacher" ∧ caller.role ≠ "admin" then
      (403, st)
    else
      (200, { st with
        attendanceSessions := st.attendanceSessions.filter (fun s => s.id ≠ session.id)
        attendanceRecords := st.attendanceRecords.filter (fun r => r.session_id ≠ session.id) })

/-! ## Performance views (views/performance.py) -/

/-- Python `float(value)` on a JSON scalar: numbers and booleans convert;
strings take the ValueError branch (decimal strings are not modelled — every
payload of interest carries numbers); null is excluded by the guard before
the call. -/
def tryFloat : JVal → Option ℚ
  | JVal.jint n => some (n : ℚ)
  | JVal.jnum q => some q
  | JVal.jbool b => some (if b then 1 else 0)
  | _ => none

/-- Optional string extraction for `data.get(key)` on text columns. -/
def asOptStr : Option JVal → Option String
  | some (JVal.jstr s) => some s
  | _ => none

/-- Embedding of performance.py `validate_performance_data`. The score bound
is checked against `Assessment.query.get(data.get(assessment_id, 0))`, so a
payload without an `assessment_id` key looks up id 0 and, when no such
assessment exists, skips the max-score comparison entirely. A non-scalar
score raises TypeError out of the function (only ValueError is caught). -/
def validate_performance_data (st : DBState) (data : Payload) (is_update : Bool) :
    Except String (Option (List (String × String))) := do
  let e0 : List (String × String) :=
    if is_update then []
    else ((["student_id", "assessment_id", "recorded_by"].filter
        (fun f => ¬ hasKey data f)).map
      (fun f => (f, pyTitle (f.replace "_" " ") ++ " is required")))
  let e1 : List (String × String) :=
    if hasKey data "student_id" then
      match getVal data "student_id" with
      | some (JVal.jint n) =>
          if (st.getStudent n).isSome then [] else [("student_id", "Student not found")]
      | _ => [("student_id", "Student not found")]
    else []
  let e2 : List (String × String) :=
    if hasKey data "assessment_id" then
      match getVal data "assessment_id" with
      | some (JVal.jint n) =>
          if (st.getAssessment n).isSome then [] else [("assessment_id", "Assessment not found")]
      | _ => [("assessment_id", "Assessment not found")]
    else []
  let e3 : List (String × String) :=
    if hasKey data "recorded_by" then
      match getVal data "recorded_by" with
      | some (JVal.jint n) =>
          if (st.getUser n).isSome then [] else [("recorded_by", "User not found")]
      | _ => [("recorded_by", "User not found")]
    else []
  let scoreGuard : Bool := hasKey data "score" &&
    (match getVal data "score" with
     | some JVal.jnull => false
     | some _ => true
     | none => false)
  let e4 ← if scoreGuard then
      match getVal data "score" with
      | some (JVal.jarr _) => Except.error "TypeError: float"
      | some (JVal.jobj _) => Except.error "TypeError: float"
      | some v =>
          match tryFloat v with
          | none => pure [("score", "Score must be a number")]
          | some score =>
              let assessment : Option Assessment :=
                match getVal data "assessment_id" with
                | none => st.getAssessment 0
                | some (JVal.jint n) => st.getAssessment n
                | some _ => none
              match assessment with
              | some a =>
                  if score > (a.max_score : ℚ) then
                    pure [("score", "Score cannot exceed maximum (" ++ toString a.max_score ++ ")")]
                  else pure ([] : List (String × String))
              | none => pure []
      | none => pure []
    else pure []
  let errors := e0 ++ e1 ++ e2 ++ e3 ++ e4
  pure (if errors.isEmpty then none else some errors)

/-- Embedding of `POST /performances` (create_performance): role gate,
validation, then the recorded-by self check `str(current_user.id) !=
str(data[recorded_by])` answered 403 before any insert. -/
def create_performance (st : DBState) (caller : User) (data : Payload) :
    Except String (Nat × DBState) := do
  if ¬ (["teacher", "headteacher", "admin"].contains caller.role) then
    pure (403, st)
  else do
    let verrs ← validate_performance_data st data false
    match verrs with
    | some _ => pure (400, st)
    | none =>
      match getVal data "recorded_by" with
      | some (JVal.jint rb) =>
          if (caller.id : Int) ≠ rb then
            pure (403, st)
          else
            match getVal data "student_id", getVal data "assessment_id" with
            | some (JVal.jint sid), some (JVal.jint aid) =>
                let newp : StudentPerformance :=
                  { id := st.nextId
                    score := (getVal data "score").bind tryFloat
                    competency_level := asOptStr (getVal data "competency_level")
                    strand := asOptStr (getVal data "strand")
                    sub_strand := asOptStr (getVal data "sub_strand")
                    comments := asOptStr (getVal data "comments")
                    student_id := sid.toNat
                    assessment_id := aid.toNat
                    recorded_by := rb.toNat }
                pure (201, { st with
                  performances := st.performances ++ [newp], nextId := st.nextId + 1 })
            | _, _ => Except.error "TypeError"
      | _ => Except.error "TypeError"

/-- Embedding of `PUT /performances/:id` (update_performance): record lookup
first (404), then the recorder/role gate (403), then validation (400), then
the field updates — `score` is overwritten with the raw supplied value. -/
def update_performance (st : DBState) (caller : User) (performance_id : Nat)
    (data : Payload) : Except String (Nat × DBState) := do
  match st.getPerformance (performance_id : Int) with
  | none => pure (404, st)
  | some perf =>
    if caller.id ≠ perf.recorded_by ∧ caller.role ≠ "headteacher" ∧ caller.role ≠ "admin" then
      pure (403, st)
    else do
      let verrs ← validate_performance_data st data true
      match verrs with
      | some _ => pure (400, st)
      | none =>
        let p1 := if hasKey data "score" then
            { perf with score := (getVal data "score").bind tryFloat }
          else perf
        let p2 := if hasKey data "competency_level" then
            { p1 with competency_level := asOptStr (getVal data "competency_level") }
          else p1
        let p3 := if hasKey data "strand" then
            { p2 with strand := asOptStr (getVal data "strand") }
          else p2
        let p4 := if hasKey data "sub_strand" then
            { p3 with sub_strand := asOptStr (getVal data "sub_strand") }
          else p3
        let p5 := if hasKey data "comments" then
            { p4 with comments := asOptStr (getVal data "comments") }
          else p4
        pure (200, { st with
          performances := st.performances.map (fun p => if p.id == perf.id then p5 else p) })

/-- Embedding of `DELETE /performances/:id` (delete_performance): record
lookup first (404), then the recorder/role gate (403), then the delete (a
performance row has no dependents). -/
def delete_performance (st : DBState) (caller : User) (performance_id : Nat) :
    Nat × DBState :=
  match st.getPerformance (performance_id : Int) with
  | none => (404, st)
  | some perf =>
    if caller.id ≠ perf.recorded_by ∧ caller.role ≠ "headteacher" ∧ caller.role ≠ "admin" then
      (403, st)
    else
      (200, { st with performances := st.performances.filter (fun p => p.id ≠ perf.id) })

/-- Python `max` over a nonempty list (callers guard emptiness). -/
def listMax : List ℚ → ℚ
  | [] => 0
  | x :: xs => xs.foldl max x

/-- Python `min` over a nonempty list (callers guard emptiness). -/
def listMin : List ℚ → ℚ
  | [] => 0
  | x :: xs => xs.foldl min x

/-- Statistics block shared by `GET /assessments/:id/performances` (lines
248-257) and `GET /classes/:id/performance-summary` (lines 365-393): the
non-null scores, and the stats dict that stays empty (`none`) exactly when
that score list is empty — list truthiness, not value truthiness. -/
structure ScoreStats where
  average : ℚ
  highest : ℚ
  lowest : ℚ
  count : Nat
deriving DecidableEq, Repr

/-- Non-null score extraction `[p.score for p in performances if p.score is
not None]`. -/
def scoresOf (performances : List StudentPerformance) : List ℚ :=
  performances.filterMap (fun p => p.score)

/-- Embedding of the `if scores:` statistics computation of performance.py. -/
def scoreStatistics (performances : List StudentPerformance) : Option ScoreStats :=
  let scores := scoresOf performances
  if scores.isEmpty then none
  else some
    { average := round2 (scores.sum / (scores.length : ℚ))
      highest := listMax scores
      lowest := listMin scores
      count := scores.length }

/-! ## User views (views/user.py) -/

/-- Opaque stand-in for werkzeug generate_password_hash; no verified property
depends on its value, only on the column being written. -/
def generate_password_hash (password : String) : String := password

/-- The uniqueness probe `User.query.filter(User.username == value, User.id !=
user_id).first()` of update_user; a non-string value matches no row. -/
def usernameTaken (st : DBState) (user_id : Nat) (v : JVal) : Bool :=
  match v with
  | JVal.jstr s => st.users.any (fun x => x.username == some s && x.id ≠ user_id)
  | _ => false

/-- The analogous probe on the email column. -/
def emailTaken (st : DBState) (user_id : Nat) (v : JVal) : Bool :=
  match v with
  | JVal.jstr s => st.users.any (fun x => x.email == s && x.id ≠ user_id)
  | _ => false

/-- Embedding of `PUT /users/:id` (update_user): user lookup first (404),
then the self-or-admin gate (403), then the non-admin role/is_active gate
(403), then the username and email uniqueness probes (400, nothing committed),
then all supplied fields applied and committed with 200. Role and is_active
are written only for admin callers. -/
def update_user (st : DBState) (caller : User) (user_id : Nat) (data : Payload) :
    Nat × DBState :=
  match st.getUser (user_id : Int) with
  | none => (404, st)
  | some u =>
    if caller.id ≠ user_id ∧ caller.role ≠ "admin" then (403, st)
    else if caller.role ≠ "admin" ∧ (hasKey data "role" ∨ hasKey data "is_active") then
      (403, st)
    else if hasKey data "username" &&
        (match getVal data "username" with
         | some v => usernameTaken st user_id v
         | none => false) then
      (400, st)
    else if hasKey data "email" &&
        (match getVal data "email" with
         | some v => emailTaken st user_id v
         | none => false) then
      (400, st)
    else
      let u1 := if hasKey data "username" then
          match getVal data "username" with
          | some (JVal.jstr s) => { u with username := some s }
          | _ => u
        else u
      let u2 := if hasKey data "email" then
          match getVal data "email" with
          | some (JVal.jstr s) => { u1 with email := s }
          | _ => u1
        else u1
      let u3 := if hasKey data "full_name" then
          match getVal data "full_name" with
          | some (JVal.jstr s) => { u2 with full_name := s }
          | _ => u2
        else u2
      let u4 := if hasKey data "phone" then
          match getVal data "phone" with
          | some (JVal.jstr s) => { u3 with phone := some s }
          | _ => u3
        else u3
      let u5 := if hasKey data "password" then
          match getVal data "password" with
          | some (JVal.jstr s) => { u4 with password_hash := some (generate_password_hash s) }
          | _ => u4
        else u4
      let u6 := if hasKey data "role" ∧ caller.role = "admin" then
          match getVal data "role" with
          | some (JVal.jstr s) => { u5 with role := s }
          | _ => u5
        else u5
      let u7 := if hasKey data "is_active" ∧ caller.role = "admin" then
          match getVal data "is_active" with
          | some (JVal.jbool b) => { u6 with is_active := b }
          | _ => u6
        else u6
      (200, { st with users := st.users.map (fun x => if x.id == u.id then u7 else x) })

/-- Embedding of `DELETE /users/:id` (delete_user): the admin gate runs
before the user lookup, then the self-deletion guard (400). Deleting commits
only when the user has no NOT-NULL dependents: recorded performances,
recorded attendance sessions and TeacherSubject rows would have their
references nullified by the session flush, which the store rejects, the
except block rolls back and answers 500; on success the classes the user
class-teaches have their nullable class_teacher_id nullified. -/
def delete_user (st : DBState) (caller : User) (user_id : Nat) : Nat × DBState :=
  if caller.role ≠ "admin" then (403, st)
  else
    match st.getUser (user_id : Int) with
    | none => (404, st)
    | some u =>
      if u.id == caller.id then (400, st)
      else if ¬ (st.performances.filter (fun p => p.recorded_by == u.id)).isEmpty ∨
          ¬ (st.attendanceSessions.filter (fun s => s.recorded_by == u.id)).isEmpty ∨
          ¬ (st.teacherSubjects.filter (fun ts => ts.teacher_id == u.id)).isEmpty then
        (500, st)
      else
        (200, { st with
          users := st.users.filter (fun x => x.id ≠ u.id)
          classes := st.classes.map (fun c =>
            if c.class_teacher_id == some u.id then { c with class_teacher_id := none }
            else c) })

/-! ## Performance reports (views/reports.py, class performance summary) -/

/-- One tuple of the base join Class x Student x StudentPerformance x
Assessment x Subject of reports.py lines 244-263 (the class comes from the
student's class_id). -/
structure JoinRow where
  cls : SchoolClass
  stu : Student
  perf : StudentPerformance
  ass : Assessment
  subj : Subject
deriving DecidableEq, Repr

/-- All base join tuples of the class performance summary query. -/
def perfJoinRows (st : DBState) : List JoinRow :=
  st.classes.flatMap fun c =>
    st.students.flatMap fun sdt =>
      st.performances.flatMap fun p =>
        st.assessments.flatMap fun a =>
          st.subjects.filterMap fun sj =>
            if sdt.class_id == some c.id && p.student_id == sdt.id &&
               p.assessment_id == a.id && a.subject_id == sj.id
            then some ⟨c, sdt, p, a, sj⟩ else none

/-- Subject ids of the caller's TeacherSubject assignments
`[ts.subject_id for ts in current_user.taught_subjects]`. -/
def taughtSubjectIds (st : DBState) (uid : Nat) : List Nat :=
  (st.teacherSubjects.filter (fun ts => ts.teacher_id == uid)).map (fun ts => ts.subject_id)

/-- Class ids of the caller's TeacherSubject assignments. -/
def taughtClassIds (st : DBState) (uid : Nat) : List Nat :=
  (st.teacherSubjects.filter (fun ts => ts.teacher_id == uid)).map (fun ts => ts.class_id)

/-- The teacher scope filter of reports.py lines 283-290:
`class_teacher_id == caller OR (subject in taught subject ids AND class in
taught class ids)` — the two memberships are over the caller's assignments as
a whole, not over a single (subject, class) assignment pair. -/
def teacherScopePred (st : DBState) (uid : Nat) (row : JoinRow) : Bool :=
  row.cls.class_teacher_id == some uid ||
    ((taughtSubjectIds st uid).contains row.subj.id &&
     (taughtClassIds st uid).contains row.cls.id)

/-- First-occurrence list of the distinct group keys. -/
def groupKeys (l : List (Nat × Nat)) : List (Nat × Nat) :=
  l.foldl (fun acc k => if acc.contains k then acc else acc ++ [k]) []

/-- One JSON row of the class performance summary response. The three
statistics fields reproduce lines 309-311: a NULL aggregate or a zero
aggregate both render as null, because the Python conditional tests the
value's truthiness. -/
structure PerfReportRow where
  class_id : Nat
  class_name : String
  subject_id : Nat
  subject_name : String
  assessment_id : Nat
  record_count : Nat
  average_score : Option ℚ
  highest_score : Option ℚ
  lowest_score : Option ℚ
deriving DecidableEq, Repr

/-- SQL aggregate then response rendering for one (class, assessment) group. -/
def aggReportRow (rows : List JoinRow) (key : Nat × Nat) : PerfReportRow :=
  let grp := rows.filter (fun r => r.cls.id == key.1 && r.ass.id == key.2)
  let scores := grp.filterMap (fun r => r.perf.score)
  let sqlAvg : Option ℚ :=
    if scores.isEmpty then none else some (scores.sum / (scores.length : ℚ))
  let sqlMax : Option ℚ := if scores.isEmpty then none else some (listMax scores)
  let sqlMin : Option ℚ := if scores.isEmpty then none else some (listMin scores)
  { class_id := key.1
    class_name := ((grp.head?.map (fun r => r.cls.name)).getD "")
    subject_id := ((grp.head?.map (fun r => r.subj.id)).getD 0)
    subject_name := ((grp.head?.map (fun r => r.subj.name)).getD "")
    assessment_id := key.2
    record_count := grp.length
    average_score := match sqlAvg with
      | some a => if a = 0 then none else some (round2 a)
      | none => none
    highest_score := match sqlMax with
      | some m => if m = 0 then none else some m
      | none => none
    lowest_score := match sqlMin with
      | some m => if m = 0 then none else some m
      | none => none }

/-- Aggregation pipeline shared by the real handler and the claim-worded
variant: filter the base rows, scope them, group and aggregate. -/
def summaryRowsFrom (rows : List JoinRow) : List PerfReportRow :=
  (groupKeys (rows.map (fun r => (r.cls.id, r.ass.id)))).map (aggReportRow rows)

/-- Filter application of reports.py lines 272-280. -/
def applySummaryFilters (rows : List JoinRow) (class_id subject_id : Option Int)
    (assessment_type : Option String) (is_cbc : Option Bool) : List JoinRow :=
  let rows := match class_id with
    | some cid => rows.filter (fun r => ((r.cls.id : Int) == cid))
    | none => rows
  let rows := match subject_id with
    | some sid => rows.filter (fun r => ((r.subj.id : Int) == sid))
    | none => rows
  let rows := match assessment_type with
    | some t => rows.filter (fun r => r.ass.assessment_type == some t)
    | none => rows
  match is_cbc with
  | some b => rows.filter (fun r => r.ass.is_cbc == b)
  | none => rows

/-- Embedding of `GET /reports/performance/class-summary`
(get_class_performance_summary of reports.py): role gate, base join, filters,
teacher scope filter applied to the row set before the group-by aggregation,
then one rendered row per (class, assessment) group. -/
def reports_class_performance_summary (st : DBState) (caller : User)
    (class_id subject_id : Option Int) (assessment_type : Option String)
    (is_cbc : Option Bool) : Nat × List PerfReportRow :=
  if ¬ (["teacher", "headteacher", "admin"].contains caller.role) then (403, [])
  else
    let rows := applySummaryFilters (perfJoinRows st) class_id subject_id assessment_type is_cbc
    let rows := if caller.role == "teacher" then
        rows.filter (teacherScopePred st caller.id)
      else rows
    (200, summaryRowsFrom rows)

/-- Modelled from the claim wording, for comparison with the source filter: a
teacher-scope predicate keeping a row exactly when the caller is the class
teacher of the row's class OR holds some TeacherSubject assignment for that
class. -/
def claimTeacherScopePred (st : DBState) (uid : Nat) (row : JoinRow) : Bool :=
  row.cls.class_teacher_id == some uid ||
    st.teacherSubjects.any (fun ts => ts.teacher_id == uid && ts.class_id == row.cls.id)

/-- The summary pipeline with the claim-worded teacher scope in place of the
source's filter; used only to compare outputs. -/
def reports_class_performance_summary_claimScoped (st : DBState) (caller : User)
    (class_id subject_id : Option Int) (assessment_type : Option String)
    (is_cbc : Option Bool) : Nat × List PerfReportRow :=
  if ¬ (["teacher", "headteacher", "admin"].contains caller.role) then (403, [])
  else
    let rows := applySummaryFilters (perfJoinRows st) class_id subject_id assessment_type is_cbc
    let rows := if caller.role == "teacher" then
        rows.filter (claimTeacherScopePred st caller.id)
      else rows
    (200, summaryRowsFrom rows)

/-! ## Academics views (views/academics.py) -/

/-- Embedding of `DELETE /classes/:id` (delete_class): class lookup first
(404), admin-only gate (403), then the two explicit pre-delete dependency
checks answered 400 with the store untouched. The delete itself runs in a
try block: the session flush nullifies the class reference of every
dependent row reached through the Class relationships, so a remaining
timetable entry — whose class_id column is NOT NULL — makes the commit
raise, the except block rolls back and the handler answers 500; on success
the class row is removed and the nullable class_id of its attendance
sessions is set to null. -/
def delete_class (st : DBState) (caller : User) (class_id : Nat) : Nat × DBState :=
  match st.getClass (class_id : Int) with
  | none => (404, st)
  | some cls =>
    if caller.role ≠ "admin" then (403, st)
    else if ¬ (st.students.filter (fun s => s.class_id == some cls.id)).isEmpty then
      (400, st)
    else if ¬ (st.teacherSubjects.filter (fun ts => ts.class_id == cls.id)).isEmpty then
      (400, st)
    else if ¬ (st.timetables.filter (fun t => t.class_id == cls.id)).isEmpty then
      (500, st)
    else
      (200, { st with
        classes := st.classes.filter (fun c => c.id ≠ cls.id)
        attendanceSessions := st.attendanceSessions.map (fun s =>
          if s.class_id == some cls.id then { s with class_id := none } else s) })

/-! ## Example fixtures

Concrete stores and payloads used by counterexamples, witnesses and
evaluation theorems. -/

/-- Admin caller of the timetable scenario. -/
def c2Admin : User := { id := 100, role := "admin", full_name := "Alice Admin" }

/-- Store of the spec example scenario: one timetable entry Monday period 3
taught by teacher 7 to class 2. -/
def c2State : DBState :=
  { users := [c2Admin, { id := 7, role := "teacher", full_name := "Tom Teacher" }]
    classes := [⟨2, "Grade 4", some "A", some "2024", none⟩, ⟨5, "Grade 5", none, none, none⟩]
    students := []
    subjects := [⟨1, "Mathematics", some "MATH101"⟩]
    teacherSubjects := []
    timetables := [⟨1, "Monday", 3, none, 1, 2, 7⟩]
    assessments := []
    performances := []
    attendanceSessions := []
    attendanceRecords := []
    nextId := 2 }

/-- Candidate of the scenario: same day, period and teacher, another class. -/
def c2Payload : Payload :=
  [("day", JVal.jstr "Monday"), ("period", JVal.jint 3), ("subject_id", JVal.jint 1),
   ("class_id", JVal.jint 5), ("teacher_id", JVal.jint 7)]

/-- The timetable store after the duplicate insert of the scenario. -/
def c2StateAfter : DBState :=
  { c2State with
    timetables := c2State.timetables ++ [⟨2, "Monday", 3, none, 1, 5, 7⟩]
    nextId := 3 }

/-- Admin caller of the report scenarios. -/
def c4Admin : User := { id := 1, role := "admin", full_name := "Ada" }

/-- Store with a single performance whose score is 0 for an assessment with
max_score 100. -/
def c4State : DBState :=
  { users := [c4Admin]
    classes := [⟨1, "Grade 4", none, none, none⟩]
    students := [⟨1, "ADM1", "Sam", some 1⟩]
    subjects := [⟨1, "Mathematics", none⟩]
    teacherSubjects := []
    timetables := []
    assessments := [⟨1, "Term 1 Exam", some "exam", 100, false, 1, 1⟩]
    performances := [⟨1, some 0, none, none, none, none, 1, 1, 1⟩]
    attendanceSessions := []
    attendanceRecords := []
    nextId := 2 }

/-- Teacher who recorded the performance of the score-bound scenario. -/
def c5Teacher : User := { id := 5, role := "teacher", full_name := "Tess" }

/-- Store with one performance (score 50) on an assessment with max_score
100, recorded by teacher 5. -/
def c5State : DBState :=
  { users := [c5Teacher]
    classes := [⟨1, "Grade 4", none, none, none⟩]
    students := [⟨1, "ADM1", "Sam", some 1⟩]
    subjects := [⟨1, "Mathematics", none⟩]
    teacherSubjects := []
    timetables := []
    assessments := [⟨1, "Term 1 Exam", some "exam", 100, false, 1, 1⟩]
    performances := [⟨1, some 50, none, none, none, none, 1, 1, 5⟩]
    attendanceSessions := []
    attendanceRecords := []
    nextId := 2 }

/-- Update payload carrying only an out-of-range score. -/
def c5UpdatePayload : Payload := [("score", JVal.jnum 150)]

/-- Create payload carrying the same out-of-range score with its
assessment_id supplied. -/
def c5CreatePayload : Payload :=
  [("student_id", JVal.jint 1), ("assessment_id", JVal.jint 1),
   ("recorded_by", JVal.jint 5), ("score", JVal.jnum 150)]

/-- The store after the unguarded update: score 150 > max_score 100. -/
def c5StateAfter : DBState :=
  { c5State with performances := [⟨1, some 150, none, none, none, none, 1, 1, 5⟩] }

/-- Minimal store for the validator payloads. -/
def c6State : DBState :=
  { users := [{ id := 1, role := "admin", full_name := "Ada" }]
    classes := [⟨1, "Grade 4", none, none, none⟩]
    students := []
    subjects := [⟨1, "Mathematics", none⟩]
    teacherSubjects := []
    timetables := []
    assessments := []
    performances := []
    attendanceSessions := []
    attendanceRecords := []
    nextId := 2 }

/-- Payload with every required field except `period`. -/
def c6MissingPeriod : Payload :=
  [("day", JVal.jstr "Monday"), ("subject_id", JVal.jint 1),
   ("class_id", JVal.jint 1), ("teacher_id", JVal.jint 1)]

/-- Payload whose `period` is a non-integer value. -/
def c6BadPeriod : Payload :=
  [("day", JVal.jstr "Monday"), ("period", JVal.jstr "three"),
   ("subject_id", JVal.jint 1), ("class_id", JVal.jint 1), ("teacher_id", JVal.jint 1)]

/-- Admin caller of the class deletion scenarios. -/
def c7Admin : User := { id := 1, role := "admin", full_name := "Ada" }

/-- Store where class 1 has no students, no subject assignments and no
timetable entries (its only student and assignment belong to class 2), but
an attendance session referencing it. -/
def c7EmptyClassState : DBState :=
  { users := [c7Admin]
    classes := [⟨1, "Grade 4", none, none, none⟩, ⟨2, "Grade 5", none, none, none⟩]
    students := [⟨1, "ADM1", "Sam", some 2⟩]
    subjects := [⟨1, "Mathematics", none⟩]
    teacherSubjects := [⟨1, 9, 1, 2⟩]
    timetables := []
    assessments := []
    performances := []
    attendanceSessions := [⟨1, "2024-01-10", none, false, some 1, none, 9⟩]
    attendanceRecords := []
    nextId := 3 }

/-- Store where class 1 has a student. -/
def c7BusyClassState : DBState :=
  { c7EmptyClassState with students := [⟨1, "ADM1", "Sam", some 1⟩] }

/-- Store where class 1 is student-free and assignment-free but still has a
timetable entry. -/
def c7TimetabledClassState : DBState :=
  { c7EmptyClassState with timetables := [⟨1, "Monday", 1, none, 1, 1, 9⟩] }

/-- Teacher caller for the not-found vs forbidden scenarios. -/
def c8Teacher : User := { id := 3, role := "teacher", full_name := "Tim" }

/-- Store with no timetable entries, one attendance session and one
performance record, both recorded by user 9. -/
def c8State : DBState :=
  { users := [c8Teacher, { id := 9, role := "teacher", full_name := "Nina" }]
    classes := [⟨1, "Grade 4", none, none, none⟩]
    students := [⟨1, "ADM1", "Sam", some 1⟩]
    subjects := [⟨1, "Mathematics", none⟩]
    teacherSubjects := []
    timetables := []
    assessments := [⟨1, "Term 1 Exam", none, 100, false, 1, 1⟩]
    performances := [⟨1, some 50, none, none, none, none, 1, 1, 9⟩]
    attendanceSessions := [⟨1, "2024-03-01", none, false, some 1, none, 9⟩]
    attendanceRecords := [⟨1, "present", none, 1, 1⟩]
    nextId := 2 }

/-- Teacher caller of the report scoping scenario. -/
def c9Teacher : User := { id := 10, role := "teacher", full_name := "Tina" }

/-- Store where teacher 10 holds the assignment (subject 2, class 1), is not
class teacher of class 1 (user 99 is), and the only performance row is for
subject 1 in class 1. -/
def c9State : DBState :=
  { users := [c9Teacher, { id := 99, role := "teacher", full_name := "Ugo" }]
    classes := [⟨1, "C1", none, none, some 99⟩]
    students := [⟨1, "A1", "S1", some 1⟩]
    subjects := [⟨1, "Mathematics", none⟩, ⟨2, "English", none⟩]
    teacherSubjects := [⟨1, 10, 2, 1⟩]
    timetables := []
    assessments := [⟨1, "T1", none, 100, false, 1, 1⟩]
    performances := [⟨1, some 50, none, none, none, none, 1, 1, 99⟩]
    attendanceSessions := []
    attendanceRecords := []
    nextId := 2 }

/-- Teacher with no class-teacher role and no assignments at all. -/
def c9Outsider : User := { id := 11, role := "teacher", full_name := "Vera" }

/-- Admin caller of the unfiltered report scenario. -/
def c9Admin : User := { id := 12, role := "admin", full_name := "Wes" }

/-- Admin caller of the recorded-by scenario. -/
def c10Admin : User := { id := 1, role := "admin", full_name := "Ada" }

/-- Store with user 2 as the named recorder of the payload. -/
def c10State : DBState :=
  { users := [c10Admin, { id := 2, role := "teacher", full_name := "Ben" }]
    classes := [⟨1, "Grade 4", none, none, none⟩]
    students := [⟨1, "ADM1", "Sam", some 1⟩]
    subjects := [⟨1, "Mathematics", none⟩]
    teacherSubjects := []
    timetables := []
    assessments := [⟨1, "Term 1 Exam", none, 100, false, 1, 1⟩]
    performances := []
    attendanceSessions := []
    attendanceRecords := []
    nextId := 5 }

/-- Create payload whose recorded_by names user 2, not the caller. -/
def c10Payload : Payload :=
  [("student_id", JVal.jint 1), ("assessment_id", JVal.jint 1),
   ("recorded_by", JVal.jint 2)]

/-! ## Theorems -/

theorem teacherConflictFor_spec {st : DBState} {day : String} {period : Int}
    {tid : Int} {t : Timetable} (h : teacherConflictFor st day period tid = some t) :
    t ∈ st.timetables ∧ t.day = day ∧ t.period = period ∧ (t.teacher_id : Int) = tid := by
  unfold teacherConflictFor at h
  have hm := List.mem_of_find?_eq_some h
  have hp := List.find?_some h
  simp only [Bool.and_eq_true, beq_iff_eq] at hp
  exact ⟨hm, hp.1.1, hp.1.2, hp.2⟩

theorem classConflictFor_spec {st : DBState} {day : String} {period : Int}
    {cid : Int} {t : Timetable} (h : classConflictFor st day period cid = some t) :
    t ∈ st.timetables ∧ t.day = day ∧ t.period = period ∧ (t.class_id : Int) = cid := by
  unfold classConflictFor at h
  have hm := List.mem_of_find?_eq_some h
  have hp := List.find?_some h
  simp only [Bool.and_eq_true, beq_iff_eq] at hp
  exact ⟨hm, hp.1.1, hp.1.2, hp.2⟩

theorem roomConflictFor_spec {st : DBState} {day : String} {period : Int}
    {v : JVal} {t : Timetable} (h : roomConflictFor st day period v = some t) :
    t ∈ st.timetables ∧ t.day = day ∧ t.period = period := by
  unfold roomConflictFor at h
  have hm := List.mem_of_find?_eq_some h
  have hp := List.find?_some h
  simp only [Bool.and_eq_true, beq_iff_eq] at hp
  exact ⟨hm, hp.1.1, hp.1.2⟩

theorem roomHit_spec {st : DBState} {day : String} {period : Int}
    {room : Option JVal} {t : Timetable} (h : roomHit st day period room = some t) :
    t ∈ st.timetables ∧ t.day = day ∧ t.period = period := by
  unfold roomHit at h
  rcases room with _ | v
  · cases h
  · dsimp only at h
    by_cases hv : v.truthy
    · rw [if_pos hv] at h
      exact roomConflictFor_spec h
    · rw [if_neg hv] at h
      cases h

theorem conflictsFor_split (st : DBState) (day : String) (period : Int)
    (teacher_id class_id : Int) (room : Option JVal) :
    conflictsFor st day period teacher_id class_id room =
      (match teacherConflictFor st day period teacher_id with
        | some t =>
            [⟨"teacher",
              "Teacher is already teaching " ++ subjectNameOf st t.subject_id ++ " to " ++
                classNameOf st t.class_id ++ " at this time", t.id⟩]
        | none => []) ++
      (match classConflictFor st day period class_id with
        | some t =>
            [⟨"class",
              "Class is already having " ++ subjectNameOf st t.subject_id ++ " with " ++
                teacherNameOf st t.teacher_id ++ " at this time", t.id⟩]
        | none => []) ++
      (match roomHit st day period room with
        | some t =>
            [⟨"room",
              "Room is already occupied by " ++ classNameOf st t.class_id ++ " for " ++
                subjectNameOf st t.subject_id ++ " at this time", t.id⟩]
        | none => []) := by
  unfold conflictsFor roomHit
  rcases room with _ | v
  · rfl
  · by_cases hv : v.truthy
    · simp only [hv, if_true]
    · simp only [hv, Bool.false_eq_true, if_false]

/-- C1: the conflict checker runs the teacher, class and (only for a truthy
room value) room checks independently over existing entries at the same
(day, period); a descriptor of each kind is present exactly when its check
hits, so every check that hits is reported; the returned set is empty exactly
when no entry shares (day, period, teacher), none shares (day, period, class)
and, when a room is supplied, none shares (day, period, room); and every
descriptor references an existing entry with the same day and period. -/
theorem C1_conflict_checker_characterization (st : DBState) (day : String)
    (period : Int) (teacher_id class_id : Int) (room : Option JVal) :
    (conflictsFor st day period teacher_id class_id room = [] ↔
      (teacherConflictFor st day period teacher_id = none ∧
       classConflictFor st day period class_id = none ∧
       roomHit st day period room = none)) ∧
    ((conflictsFor st day period teacher_id class_id room).any
        (fun c => c.ctype == "teacher") =
      (teacherConflictFor st day period teacher_id).isSome) ∧
    ((conflictsFor st day period teacher_id class_id room).any
        (fun c => c.ctype == "class") =
      (classConflictFor st day period class_id).isSome) ∧
    ((conflictsFor st day period teacher_id class_id room).any
        (fun c => c.ctype == "room") =
      (roomHit st day period room).isSome) ∧
    (∀ c ∈ conflictsFor st day period teacher_id class_id room,
      ∃ t ∈ st.timetables,
        t.id = c.conflicting_entry_id ∧ t.day = day ∧ t.period = period) := by
  rw [conflictsFor_split]
  refine ⟨?_, ?_, ?_, ?_, ?_⟩
  · cases h1 : teacherConflictFor st day period teacher_id <;>
      cases h2 : classConflictFor st day period class_id <;>
        cases h3 : roomHit st day period room <;> simp
  · cases h1 : teacherConflictFor st day period teacher_id <;>
      cases h2 : classConflictFor st day period class_id <;>
        cases h3 : roomHit st day period room <;> simp
  · cases h1 : teacherConflictFor st day period teacher_id <;>
      cases h2 : classConflictFor st day period class_id <;>
        cases h3 : roomHit st day period room <;> simp
  · cases h1 : teacherConflictFor st day period teacher_id <;>
      cases h2 : classConflictFor st day period class_id <;>
        cases h3 : roomHit st day period room <;> simp
  · intro c hc
    simp only [List.mem_append] at hc
    rcases hc with (hc | hc) | hc
    · revert hc
      cases h1 : teacherConflictFor st day period teacher_id with
      | none => intro hc; simp at hc
      | some t1 =>
          intro hc
          simp only [List.mem_singleton] at hc
          subst hc
          obtain ⟨hm, hd, hp, _⟩ := teacherConflictFor_spec h1
          exact ⟨t1, hm, rfl, hd, hp⟩
    · revert hc
      cases h2 : classConflictFor st day period class_id with
      | none => intro hc; simp at hc
      | some t2 =>
          intro hc
          simp only [List.mem_singleton] at hc
          subst hc
          obtain ⟨hm, hd, hp, _⟩ := classConflictFor_spec h2
          exact ⟨t2, hm, rfl, hd, hp⟩
    · revert hc
      cases h3 : roomHit st day period room with
      | none => intro hc; simp at hc
      | some t3 =>
          intro hc
          simp only [List.mem_singleton] at hc
          subst hc
          obtain ⟨hm, hd, hp⟩ := roomHit_spec h3
          exact ⟨t3, hm, rfl, hd, hp⟩

/-- C2, counterexample: on the store holding the entry (Monday, period 3,
teacher 7, class 2), creating the candidate (Monday, 3, teacher 7, class 5)
succeeds with 201 and appends a second entry — it does not fail with a 409
conflict and the store grows, because the handler runs no conflict pre-check
and the schema declares no uniqueness constraint the commit could violate. -/
theorem C2_create_succeeds_counterexample :
    create_timetable_entry c2State c2Admin c2Payload = Except.ok (201, c2StateAfter) ∧
    c2State.timetables.length = 1 ∧ c2StateAfter.timetables.length = 2 := by
  refine ⟨?_, rfl, rfl⟩
  rfl

/-- C2, amended: check-conflicts on the candidate returns exactly one
teacher-type conflict referencing the existing entry; the create operation,
which performs no conflict pre-check and whose store declares no uniqueness
constraint on (day, period, teacher), succeeds with 201 and inserts the
duplicate entry instead of failing with a conflict response. -/
theorem C2_scenario_amended :
    check_timetable_conflicts c2State c2Admin c2Payload =
      Except.ok (200,
        [⟨"teacher", "Teacher is already teaching Mathematics to Grade 4 at this time", 1⟩]) ∧
    create_timetable_entry c2State c2Admin c2Payload = Except.ok (201, c2StateAfter) := by
  exact ⟨rfl, rfl⟩

theorem round2_zero : round2 0 = 0 := by
  simp [round2, roundHalfEven, ratFloor_eq]

/-- C3: the attendance rate of GET /attendance/student/:id equals
present / total x 100 rounded to two decimals, is 0 when there are no
records (no division fault), always lies in [0, 100], and is invariant under
reordering of the records. -/
theorem C3_attendance_rate_properties (records : List AttendanceRecord) :
    ((student_attendance_statistics records).2.2 =
      (if records.length = 0 then 0
       else round2 ((presentCountOf records : ℚ) / (records.length : ℚ) * 100))) ∧
    0 ≤ (student_attendance_statistics records).2.2 ∧
    (student_attendance_statistics records).2.2 ≤ 100 ∧
    (∀ records2 : List AttendanceRecord, records.Perm records2 →
      (student_attendance_statistics records).2.2 =
        (student_attendance_statistics records2).2.2) := by
  have hle : presentCountOf records ≤ records.length := by
    unfold presentCountOf
    exact List.length_filter_le _ _
  have hbounds : 0 ≤ (student_attendance_statistics records).2.2 ∧
      (student_attendance_statistics records).2.2 ≤ 100 := by
    unfold student_attendance_statistics
    dsimp only
    by_cases h : records.length > 0
    · rw [if_pos h]
      have hpos : (0 : ℚ) < (records.length : ℚ) := by exact_mod_cast h
      have h0 : (0 : ℚ) ≤ (presentCountOf records : ℚ) / (records.length : ℚ) * 100 := by
        positivity
      have hcast : (presentCountOf records : ℚ) ≤ (records.length : ℚ) := by
        exact_mod_cast hle
      have h100 : (presentCountOf records : ℚ) / (records.length : ℚ) * 100 ≤ 100 := by
        rw [div_mul_eq_mul_div, div_le_iff₀ hpos]
        nlinarith
      exact ⟨round2_nonneg h0, round2_le_100 h100⟩
    · rw [if_neg h, round2_zero]
      norm_num
  refine ⟨?_, hbounds.1, hbounds.2, ?_⟩
  · unfold student_attendance_statistics
    dsimp only
    by_cases h : records.length = 0
    · have : ¬ records.length > 0 := by omega
      rw [if_pos h, if_neg this, round2_zero]
    · have : records.length > 0 := Nat.pos_of_ne_zero h
      rw [if_neg h, if_pos this]
  · intro records2 hperm
    unfold student_attendance_statistics presentCountOf
    dsimp only
    rw [hperm.length_eq, (hperm.filter _).length_eq]

/-- C4, evaluation at the failing input: for the single performance with
score 0, the performance.py statistics block reports average 0.00 with count
1 (list truthiness distinguishes no-data from all-zero scores), but the
reports.py class performance summary renders average, highest and lowest as
null for that same data, because `if result.average_score` is false at the
float 0.0. -/
theorem C4_zero_score_statistics :
    scoreStatistics c4State.performances =
      some { average := 0, highest := 0, lowest := 0, count := 1 } ∧
    reports_class_performance_summary c4State c4Admin none none none none =
      (200, [{ class_id := 1, class_name := "Grade 4", subject_id := 1,
               subject_name := "Mathematics", assessment_id := 1, record_count := 1,
               average_score := none, highest_score := none, lowest_score := none }]) := by
  constructor
  · simp [scoreStatistics, scoresOf, listMax, listMin, c4State, round2_zero,
      List.filterMap_cons]
  · simp [reports_class_performance_summary, summaryRowsFrom, applySummaryFilters,
      perfJoinRows, groupKeys, aggReportRow, c4State, c4Admin, listMax, listMin,
      teacherScopePred, round2_zero, List.filterMap_cons]

/-- C5, evaluation at the failing input: updating the performance that
references the max_score-100 assessment with score 150 passes validation
(the validator looks up `data.get(assessment_id, 0)`, which misses) and
stores 150, breaking the invariant; the create path with the same score and
the assessment_id supplied is correctly rejected with 400 and an unchanged
store. -/
theorem C5_update_bypasses_max_score :
    update_performance c5State c5Teacher 1 c5UpdatePayload = Except.ok (200, c5StateAfter) ∧
    c5State.getAssessment 1 =
      some ⟨1, "Term 1 Exam", some "exam", 100, false, 1, 1⟩ ∧
    (c5StateAfter.performances.map (fun p => p.score)) = [some 150] ∧
    create_performance c5State c5Teacher c5CreatePayload = Except.ok (400, c5State) := by
  refine ⟨rfl, rfl, rfl, ?_⟩
  rfl

/-- C6, evaluation at the failing input: the validator raises KeyError on a
payload missing the `period` field (the precedence of line 22 evaluates
`data[period]` whenever the first conjunct is false), instead of returning
the error map; a payload with a non-integer period is answered with the
period error map, and the create handler propagates the KeyError instead of
rejecting with a validation response. -/
theorem C6_validator_keyerror_on_missing_period :
    validate_timetable_data c6State c6MissingPeriod false =
      Except.error "KeyError: period" ∧
    validate_timetable_data c6State c6BadPeriod false =
      Except.ok (some [("period", "Period must be an integer between 1 and 8")]) ∧
    create_timetable_entry c6State { id := 1, role := "admin", full_name := "Ada" } c6MissingPeriod =
      Except.error "KeyError: period" := by
  exact ⟨rfl, rfl, rfl⟩

/-- C7, counterexample: class 1 of this store has zero students and zero
TeacherSubject assignments, yet deleting it does not succeed: a timetable
entry still references it, the session flush would nullify the NOT-NULL
Timetable.class_id column, the commit raises and the handler answers 500
with the store rolled back unchanged. -/
theorem C7_delete_with_timetable_counterexample :
    (c7TimetabledClassState.students.filter (fun s => s.class_id == some 1)).isEmpty = true ∧
    (c7TimetabledClassState.teacherSubjects.filter (fun ts => ts.class_id == 1)).isEmpty = true ∧
    delete_class c7TimetabledClassState c7Admin 1 = (500, c7TimetabledClassState) := by
  exact ⟨rfl, rfl, rfl⟩

/-- C7, amended: for an admin caller and an existing class, deletion succeeds
with 200 when the class has no students, no TeacherSubject assignments and no
timetable entries — removing the class and nullifying the class reference of
its attendance sessions; it fails with the dependency error 400 and an
untouched store when at least one student or subject assignment exists; and
a student-free, assignment-free class that still has timetable entries makes
the commit raise, answered 500 with the store rolled back unchanged. -/
theorem C7_delete_class_guards (st : DBState) (caller : User) (cid : Nat)
    (cls : SchoolClass) (hfound : st.getClass (cid : Int) = some cls)
    (hrole : caller.role = "admin") :
    (((st.students.filter (fun s => s.class_id == some cls.id)).isEmpty = true ∧
      (st.teacherSubjects.filter (fun ts => ts.class_id == cls.id)).isEmpty = true ∧
      (st.timetables.filter (fun t => t.class_id == cls.id)).isEmpty = true) →
      delete_class st caller cid =
        (200, { st with
          classes := st.classes.filter (fun c => c.id ≠ cls.id)
          attendanceSessions := st.attendanceSessions.map (fun s =>
            if s.class_id == some cls.id then { s with class_id := none } else s) })) ∧
    (((st.students.filter (fun s => s.class_id == some cls.id)).isEmpty = false ∨
      (st.teacherSubjects.filter (fun ts => ts.class_id == cls.id)).isEmpty = false) →
      delete_class st caller cid = (400, st)) ∧
    (((st.students.filter (fun s => s.class_id == some cls.id)).isEmpty = true ∧
      (st.teacherSubjects.filter (fun ts => ts.class_id == cls.id)).isEmpty = true ∧
      (st.timetables.filter (fun t => t.class_id == cls.id)).isEmpty = false) →
      delete_class st caller cid = (500, st)) := by
  unfold delete_class
  rw [hfound]
  dsimp only
  rw [hrole]
  refine ⟨?_, ?_, ?_⟩
  · rintro ⟨h1, h2, h3⟩
    simp [h1, h2, h3]
  · rintro (h1 | h1)
    · simp [h1]
    · by_cases h2 : (st.students.filter (fun s => s.class_id == some cls.id)).isEmpty
      · simp [h1, h2]
      · simp [h2]
  · rintro ⟨h1, h2, h3⟩
    simp [h1, h2, h3]

/-- Witness for C7 at concrete stores: deleting the dependent-free class 1
succeeds, removes it and nullifies the class reference of its attendance
session; deleting it while a student belongs to it is answered 400 with the
store unchanged; deleting it while a timetable entry references it is
answered 500 with the store unchanged. -/
theorem C7_delete_class_guards_witness :
    delete_class c7EmptyClassState c7Admin 1 =
      (200, { c7EmptyClassState with
        classes := c7EmptyClassState.classes.filter (fun c => c.id ≠ 1)
        attendanceSessions := c7EmptyClassState.attendanceSessions.map (fun s =>
          if s.class_id == some 1 then { s with class_id := none } else s) }) ∧
    delete_class c7BusyClassState c7Admin 1 = (400, c7BusyClassState) ∧
    delete_class c7TimetabledClassState c7Admin 1 = (500, c7TimetabledClassState) :=
  ⟨(C7_delete_class_guards c7EmptyClassState c7Admin 1
      ⟨1, "Grade 4", none, none, none⟩ rfl rfl).1 ⟨rfl, rfl, rfl⟩,
   (C7_delete_class_guards c7BusyClassState c7Admin 1
      ⟨1, "Grade 4", none, none, none⟩ rfl rfl).2.1 (Or.inl rfl),
   (C7_delete_class_guards c7TimetabledClassState c7Admin 1
      ⟨1, "Grade 4", none, none, none⟩ rfl rfl).2.2 ⟨rfl, rfl, rfl⟩⟩

/-- C8, counterexample: a teacher-role caller updating the nonexistent
timetable entry 99 receives 403, not the not-found response the claim
promises regardless of role — the role gate of update_timetable_entry runs
before the entry lookup. -/
theorem C8_timetable_role_gate_counterexample :
    c8State.getTimetable 99 = none ∧
    update_timetable_entry c8State c8Teacher 99 [] = Except.ok (403, c8State) := by
  exact ⟨rfl, rfl⟩

/-- C8, amended: the update and delete handlers for attendance sessions and
performance records, and the user update handler, look the resource up first,
so a nonexistent id is answered 404 for every caller and an existing resource
with an unauthorized caller 403; but the timetable update and delete handlers
and the user delete handler run their role gate before the lookup, so a
caller lacking the required role receives 403 even for an id that names
nothing, and their 404 for nonexistent ids is reached only by callers who
pass the role gate. -/
theorem C8_not_found_vs_forbidden_amended (st : DBState) (caller : User)
    (sid pid uid tid : Nat) (data : Payload) :
    (st.getSession (sid : Int) = none →
      update_attendance_session st caller sid data = Except.ok (404, st)) ∧
    (∀ s : AttendanceSession, st.getSession (sid : Int) = some s →
      caller.id ≠ s.recorded_by → caller.role ≠ "headteacher" → caller.role ≠ "admin" →
      update_attendance_session st caller sid data = Except.ok (403, st)) ∧
    (st.getSession (sid : Int) = none →
      delete_attendance_session st caller sid = (404, st)) ∧
    (∀ s : AttendanceSession, st.getSession (sid : Int) = some s →
      caller.id ≠ s.recorded_by → caller.role ≠ "headteacher" → caller.role ≠ "admin" →
      delete_attendance_session st caller sid = (403, st)) ∧
    (st.getPerformance (pid : Int) = none →
      update_performance st caller pid data = Except.ok (404, st)) ∧
    (∀ p : StudentPerformance, st.getPerformance (pid : Int) = some p →
      caller.id ≠ p.recorded_by → caller.role ≠ "headteacher" → caller.role ≠ "admin" →
      update_performance st caller pid data = Except.ok (403, st)) ∧
    (st.getPerformance (pid : Int) = none →
      delete_performance st caller pid = (404, st)) ∧
    (∀ p : StudentPerformance, st.getPerformance (pid : Int) = some p →
      caller.id ≠ p.recorded_by → caller.role ≠ "headteacher" → caller.role ≠ "admin" →
      delete_performance st caller pid = (403, st)) ∧
    (st.getUser (uid : Int) = none →
      update_user st caller uid data = (404, st)) ∧
    (∀ u : User, st.getUser (uid : Int) = some u →
      caller.id ≠ uid → caller.role ≠ "admin" →
      update_user st caller uid data = (403, st)) ∧
    (caller.role ≠ "admin" → caller.role ≠ "headteacher" →
      update_timetable_entry st caller tid data = Except.ok (403, st)) ∧
    ((caller.role = "admin" ∨ caller.role = "headteacher") →
      st.getTimetable (tid : Int) = none →
      update_timetable_entry st caller tid data = Except.ok (404, st)) ∧
    (caller.role ≠ "admin" → caller.role ≠ "headteacher" →
      delete_timetable_entry st caller tid = (403, st)) ∧
    ((caller.role = "admin" ∨ caller.role = "headteacher") →
      st.getTimetable (tid : Int) = none →
      delete_timetable_entry st caller tid = (404, st)) ∧
    (caller.role ≠ "admin" →
      delete_user st caller uid = (403, st)) ∧
    (caller.role = "admin" → st.getUser (uid : Int) = none →
      delete_user st caller uid = (404, st)) := by
  have hgate : ∀ h : caller.role = "admin" ∨ caller.role = "headteacher",
      ¬ (caller.role ≠ "admin" ∧ caller.role ≠ "headteacher") := by
    rintro (h | h) <;> simp [h]
  refine ⟨?_, ?_, ?_, ?_, ?_, ?_, ?_, ?_, ?_, ?_, ?_, ?_, ?_, ?_, ?_, ?_⟩
  · intro h
    unfold update_attendance_session
    rw [h]
    rfl
  · intro s hs h1 h2 h3
    unfold update_attendance_session
    rw [hs]
    dsimp only
    rw [if_pos ⟨h1, h2, h3⟩]
    rfl
  · intro h
    unfold delete_attendance_session
    rw [h]
  · intro s hs h1 h2 h3
    unfold delete_attendance_session
    rw [hs]
    dsimp only
    rw [if_pos ⟨h1, h2, h3⟩]
  · intro h
    unfold update_performance
    rw [h]
    rfl
  · intro p hp h1 h2 h3
    unfold update_performance
    rw [hp]
    dsimp only
    rw [if_pos ⟨h1, h2, h3⟩]
    rfl
  · intro h
    unfold delete_performance
    rw [h]
  · intro p hp h1 h2 h3
    unfold delete_performance
    rw [hp]
    dsimp only
    rw [if_pos ⟨h1, h2, h3⟩]
  · intro h
    unfold update_user
    rw [h]
  · intro u hu h1 h2
    unfold update_user
    rw [hu]
    dsimp only
    rw [if_pos ⟨h1, h2⟩]
  · intro h1 h2
    unfold update_timetable_entry
    rw [if_pos ⟨h1, h2⟩]
    rfl
  · intro hrole h404
    unfold update_timetable_entry
    rw [if_neg (hgate hrole), h404]
    rfl
  · intro h1 h2
    unfold delete_timetable_entry
    rw [if_pos ⟨h1, h2⟩]
  · intro hrole h404
    unfold delete_timetable_entry
    rw [if_neg (hgate hrole), h404]
  · intro h1
    unfold delete_user
    rw [if_pos h1]
  · intro hrole h404
    unfold delete_user
    rw [if_neg (not_not_intro hrole), h404]

theorem foldl_dedup_mem {k : Nat × Nat} :
    ∀ (l acc : List (Nat × Nat)),
      k ∈ l.foldl (fun acc k2 => if acc.contains k2 then acc else acc ++ [k2]) acc →
      k ∈ acc ∨ k ∈ l := by
  intro l
  induction l with
  | nil =>
      intro acc hacc
      exact Or.inl hacc
  | cons x xs ih =>
      intro acc hacc
      simp only [List.foldl_cons] at hacc
      rcases ih _ hacc with h3 | h3
      · by_cases hx : acc.contains x
        · rw [if_pos hx] at h3
          exact Or.inl h3
        · rw [if_neg hx] at h3
          rw [List.mem_append] at h3
          rcases h3 with h3 | h3
          · exact Or.inl h3
          · rw [List.mem_singleton] at h3
            exact Or.inr (by simp [h3])
      · exact Or.inr (List.mem_cons_of_mem _ h3)

theorem mem_groupKeys {l : List (Nat × Nat)} {k : Nat × Nat} (h : k ∈ groupKeys l) :
    k ∈ l := by
  unfold groupKeys at h
  rcases foldl_dedup_mem l [] h with h3 | h3
  · simp at h3
  · exact h3

theorem perfJoinRows_cls_mem {st : DBState} {r : JoinRow} (h : r ∈ perfJoinRows st) :
    r.cls ∈ st.classes := by
  unfold perfJoinRows at h
  simp only [List.mem_flatMap, List.mem_filterMap] at h
  obtain ⟨c, hc, sdt, hsdt, p, hp, a, ha, sj, hsj, hif⟩ := h
  by_cases hcond : (sdt.class_id == some c.id && p.student_id == sdt.id &&
      p.assessment_id == a.id && a.subject_id == sj.id) = true
  · rw [if_pos hcond] at hif
    cases hif
    exact hc
  · rw [if_neg hcond] at hif
    cases hif

theorem taughtClassIds_mem {st : DBState} {uid n : Nat} (h : n ∈ taughtClassIds st uid) :
    ∃ ts ∈ st.teacherSubjects, ts.teacher_id = uid ∧ ts.class_id = n := by
  unfold taughtClassIds at h
  simp only [List.mem_map, List.mem_filter, beq_iff_eq] at h
  obtain ⟨ts, ⟨hmem, hteacher⟩, hcid⟩ := h
  exact ⟨ts, hmem, hteacher, hcid⟩

/-- C9, counterexample: teacher 10 holds the assignment (subject 2, class 1)
and the only base row is for subject 1 of class 1; the handler's filter also
requires the row's subject to be among the teacher's taught subjects, so the
real report is empty, while the claim-worded filter (class teacher OR an
assignment for the class) would keep the row and aggregate it. -/
theorem C9_scope_filter_counterexample :
    reports_class_performance_summary c9State c9Teacher none none none none = (200, []) ∧
    reports_class_performance_summary_claimScoped c9State c9Teacher none none none none =
      (200, [{ class_id := 1, class_name := "C1", subject_id := 1,
               subject_name := "Mathematics", assessment_id := 1, record_count := 1,
               average_score := some 50, highest_score := some 50,
               lowest_score := some 50 }]) := by
  constructor
  · rfl
  · norm_num [reports_class_performance_summary_claimScoped, summaryRowsFrom,
      applySummaryFilters, perfJoinRows, groupKeys, aggReportRow, c9State, c9Teacher,
      claimTeacherScopePred, listMax, listMin, round2, roundHalfEven, ratFloor_eq,
      List.filterMap_cons]

/-- C9, amended: a teacher-role caller who is not class teacher of the
requested class and holds no TeacherSubject assignment for it receives a 200
response with an empty result set, not an authorization error; admin and
headteacher callers get the filtered base rows aggregated with no scope
filter; and for a teacher every reported row is for a class where they are
the class teacher or hold some TeacherSubject assignment — but the row
filter the handler applies is class-teacher OR (row subject among the
teacher's taught subjects AND row class among their taught classes), which
is stricter than the claim's filter. -/
theorem C9_teacher_scope_amended (st : DBState) (caller : User) (cid : Int) :
    (caller.role = "teacher" →
     (∀ c ∈ st.classes, (c.id : Int) = cid → c.class_teacher_id ≠ some caller.id) →
     (∀ ts ∈ st.teacherSubjects, ts.teacher_id = caller.id → (ts.class_id : Int) ≠ cid) →
     reports_class_performance_summary st caller (some cid) none none none = (200, [])) ∧
    ((caller.role = "admin" ∨ caller.role = "headteacher") →
      reports_class_performance_summary st caller (some cid) none none none =
        (200, summaryRowsFrom (applySummaryFilters (perfJoinRows st) (some cid)
          none none none))) ∧
    (caller.role = "teacher" →
      ∀ row ∈ (reports_class_performance_summary st caller none none none none).2,
        ∃ c ∈ st.classes, c.id = row.class_id ∧
          (c.class_teacher_id = some caller.id ∨
           ∃ ts ∈ st.teacherSubjects, ts.teacher_id = caller.id ∧ ts.class_id = c.id)) := by
  refine ⟨?_, ?_, ?_⟩
  · intro hrole hct hts
    have hnil : (applySummaryFilters (perfJoinRows st) (some cid) none none none).filter
        (teacherScopePred st caller.id) = [] := by
      rw [List.filter_eq_nil_iff]
      intro r hr
      unfold applySummaryFilters at hr
      dsimp only at hr
      rw [List.mem_filter] at hr
      obtain ⟨hrmem, hrcid⟩ := hr
      have hcls := perfJoinRows_cls_mem hrmem
      have hcid : (r.cls.id : Int) = cid := by
        simpa using hrcid
      unfold teacherScopePred
      simp only [Bool.or_eq_true, Bool.and_eq_true, beq_iff_eq, not_or]
      refine ⟨hct r.cls hcls hcid, ?_⟩
      rintro ⟨_, hcontains⟩
      have hmemt : r.cls.id ∈ taughtClassIds st caller.id := by
        simpa using hcontains
      obtain ⟨ts, hmem, hteach, hclsid⟩ := taughtClassIds_mem hmemt
      exact hts ts hmem hteach (by rw [hclsid]; exact hcid)
    unfold reports_class_performance_summary
    rw [hrole]
    rw [if_neg (by simp)]
    dsimp only
    rw [if_pos (by simp)]
    rw [hnil]
    rfl
  · intro hrole
    unfold reports_class_performance_summary
    rcases hrole with h | h <;> rw [h] <;> rfl
  · intro hrole row hrow
    unfold reports_class_performance_summary at hrow
    rw [hrole] at hrow
    rw [if_neg (by simp)] at hrow
    dsimp only at hrow
    rw [if_pos (by simp)] at hrow
    unfold summaryRowsFrom at hrow
    rw [List.mem_map] at hrow
    obtain ⟨k, hk, hrowEq⟩ := hrow
    have hkmem := mem_groupKeys hk
    rw [List.mem_map] at hkmem
    obtain ⟨r, hr, hkey⟩ := hkmem
    rw [List.mem_filter] at hr
    obtain ⟨hrrows, hpred⟩ := hr
    have hrbase : r ∈ perfJoinRows st := by
      unfold applySummaryFilters at hrrows
      dsimp only at hrrows
      exact hrrows
    have hid : r.cls.id = row.class_id := by
      subst hrowEq
      unfold aggReportRow
      dsimp only
      rw [← hkey]
    refine ⟨r.cls, perfJoinRows_cls_mem hrbase, hid, ?_⟩
    unfold teacherScopePred at hpred
    simp only [Bool.or_eq_true, Bool.and_eq_true, beq_iff_eq] at hpred
    rcases hpred with h | ⟨_, hcont⟩
    · exact Or.inl h
    · have hmemt : r.cls.id ∈ taughtClassIds st caller.id := by
        simpa using hcont
      obtain ⟨ts, hmem, hteach, hclsid⟩ := taughtClassIds_mem hmemt
      exact Or.inr ⟨ts, hmem, hteach, hclsid⟩

/-- C10: once validation passes, a create-performance request whose
recorded_by names a user other than the caller is answered 403 and the store
is unchanged, for any caller whose role may record performance — admin and
headteacher included. -/
theorem C10_recorded_by_must_be_caller (st : DBState) (caller : User) (data : Payload)
    (rb : Int)
    (hrole : (["teacher", "headteacher", "admin"].contains caller.role) = true)
    (hval : validate_performance_data st data false = Except.ok none)
    (hrb : getVal data "recorded_by" = some (JVal.jint rb))
    (hne : (caller.id : Int) ≠ rb) :
    create_performance st caller data = Except.ok (403, st) := by
  unfold create_performance
  rw [if_neg (not_not_intro hrole)]
  rw [hval]
  dsimp only [Bind.bind, Except.bind]
  rw [hrb]
  dsimp only
  rw [if_pos hne]
  rfl

/-- Witness for C10: an admin caller whose create payload names user 2 as
recorder is answered 403 with the store unchanged. -/
theorem C10_recorded_by_witness :
    create_performance c10State c10Admin c10Payload = Except.ok (403, c10State) :=
  C10_recorded_by_must_be_caller c10State c10Admin c10Payload 2 rfl rfl rfl (by decide)

end EduApi
